import Mathlib

/-!
Verification development for the nanobench HTML graph tools
(`nanobench_html_graph_renderer.hpp` and `nanobench_html_graph_doctest_main.hpp`).

The C++ code is shallowly embedded as follows.

* `StreamState` models the `std::ofstream` member `m_file`: whether a file is
  currently attached (`isOpen`, mirroring `is_open()`), whether the stream is
  healthy (`good`, mirroring `!fail()`, i.e. the stream's `operator bool`), and
  the byte sequence written so far (`content`).  Opening an already-open stream
  fails (sets the fail flag), opening an unopenable path fails, a successful
  `open` clears the flags, and writing to a stream that is failed or not open
  writes nothing and sets the fail flag, exactly as `std::ofstream` behaves.
  Whether a path can be opened is abstracted by a function `fs : String → Bool`.

* `HtmlGraphRenderer` carries the six data members of the C++ class.  The
  constructor, the builder setters `showlegend` / `showepochs` / `rangemode`,
  `open` (named `openFile`, since `open` is a Lean keyword), the destructor
  (`destruct`), `operator bool` (`toBool`), `skeleton` and `render_to` are
  translated member for member.  A thrown `std::runtime_error` is modelled by
  returning the post-throw object state together with `some message`.

* The external `ankerl::nanobench::render(template, bench, stream)` call is
  abstracted by a parameter `render : String → β → String` producing the bytes
  it writes to the stream from the mustache template and the benchmark.
-/

/-- State of the `std::ofstream` data member `m_file`. -/
structure StreamState where
  isOpen : Bool
  good : Bool
  content : String
deriving DecidableEq

/-- A default-constructed `std::ofstream`: no file attached, no error flags,
nothing written. -/
def StreamState.init : StreamState := ⟨false, true, ""⟩

/-- `std::ofstream::open`: fails (failbit) if a file is already attached or the
path cannot be opened; on success attaches the file and clears the flags.
`fs path` tells whether `path` can be opened for writing. -/
def StreamState.openFile (fs : String → Bool) (st : StreamState) (path : String) : StreamState :=
  if st.isOpen then { st with good := false }
  else if fs path then { st with isOpen := true, good := true }
  else { st with good := false }

/-- `operator<<` on the stream: appends when the stream is healthy and a file
is attached, otherwise writes nothing and raises the fail flag. -/
def StreamState.write (st : StreamState) (s : String) : StreamState :=
  if st.good ∧ st.isOpen then { st with content := st.content ++ s }
  else { st with good := false }

/-- The data members of `HtmlGraphRenderer` (source lines 324-329). -/
structure HtmlGraphRenderer where
  m_plot_type : String
  m_show_legend : String
  m_show_epochs : String
  m_range_mode : String
  m_filename : String
  m_file : StreamState
deriving DecidableEq

/-- The constructor `HtmlGraphRenderer(std::string plot_type)` together with
the member initializers of the class. -/
def HtmlGraphRenderer.construct (plot_type : String) : HtmlGraphRenderer :=
  { m_plot_type := plot_type
    m_show_legend := "false"
    m_show_epochs := ""
    m_range_mode := ", rangemode: \x27tozero\x27"
    m_filename := ""
    m_file := StreamState.init }

/-- Setter `showlegend(bool do_show)`. -/
def HtmlGraphRenderer.showlegend (r : HtmlGraphRenderer) (do_show : Bool) : HtmlGraphRenderer :=
  { r with m_show_legend := if do_show then "true" else "false" }

/-- Setter `showepochs(bool do_show)`. -/
def HtmlGraphRenderer.showepochs (r : HtmlGraphRenderer) (do_show : Bool) : HtmlGraphRenderer :=
  { r with m_show_epochs := if do_show then "; epochs: \x7b\x7bepochs\x7d\x7d" else "" }

/-- Setter `rangemode(std::string const& mode)`. -/
def HtmlGraphRenderer.rangemode (r : HtmlGraphRenderer) (mode : String) : HtmlGraphRenderer :=
  { r with m_range_mode := if !mode.isEmpty then ", rangemode: \x27" ++ mode ++ "\x27" else "" }

/-- The fixed HTML prologue written by `open` (source lines 211-219). -/
def prologue : String :=
  "<!doctype html>\n"
  ++ "<html>\n"
  ++ "  <head>\n"
  ++ "    <script src=\"https://cdn.plot.ly/plotly-3.0.1.min.js\"></script>\n"
  ++ "  </head>\n"
  ++ "  <body>\n"

/-- The fixed HTML epilogue written by the destructor (source lines 233-236). -/
def epilogue : String := "  </body>\n" ++ "</html>\n"

/-- `void open(std::string filename)` (source lines 202-221): stores the
filename, opens the stream on it, throws `std::runtime_error` if the stream is
not good afterwards, otherwise writes the prologue.  The returned pair is the
object state after the call together with the thrown message, if any. -/
def HtmlGraphRenderer.openFile (fs : String → Bool) (r : HtmlGraphRenderer)
    (filename : String) : HtmlGraphRenderer × Option String :=
  let r1 : HtmlGraphRenderer := { r with m_filename := filename }
  let r2 : HtmlGraphRenderer := { r1 with m_file := r1.m_file.openFile fs r1.m_filename }
  if !r2.m_file.good then
    (r2, some ("Cannot render ouput to " ++ r2.m_filename))
  else
    ({ r2 with m_file := r2.m_file.write prologue }, none)

/-- The destructor `~HtmlGraphRenderer()` (source lines 228-239): if no file
is attached it does nothing, otherwise it writes the epilogue. -/
def HtmlGraphRenderer.destruct (r : HtmlGraphRenderer) : HtmlGraphRenderer :=
  if !r.m_file.isOpen then r
  else { r with m_file := r.m_file.write epilogue }

/-- `explicit operator bool()` (source lines 244-248): `bool(m_file)`, i.e.
the stream has no error flags set. -/
def HtmlGraphRenderer.toBool (r : HtmlGraphRenderer) : Bool :=
  r.m_file.good

/-- `std::string skeleton(std::string const& id, std::string const& plot_type)`
(source lines 298-322), written literal for literal; `\x27` is `'`, `\x7b` is
an opening brace and `\x7d` a closing brace. -/
def HtmlGraphRenderer.skeleton (r : HtmlGraphRenderer) (id : String) (plot_type : String) :
    String :=
  let type : String := if !plot_type.isEmpty then plot_type else r.m_plot_type
  "    <div id=\x27" ++ id ++ "\x27>\n"
  ++ "      <div class=\x27plot-container plotly\x27 style=\x27width: 100%;\x27></div>\n"
  ++ "    </div>\n"
  ++ "    <script>\n"
  ++ "        var data = [\n"
  ++ "            \x7b\x7b#result\x7d\x7d\x7b\n"
  ++ "                name: \x27\x7b\x7bname\x7d\x7d (error: \x27 + (100*\x7b\x7bmedianAbsolutePercentError(elapsed)\x7d\x7d).toFixed(2) + \x27%"
  ++ r.m_show_epochs
  ++ ")\x27,\n"
  ++ "                y: [\x7b\x7b#measurement\x7d\x7d\x7b\x7belapsed\x7d\x7d\x7b\x7b^-last\x7d\x7d, \x7b\x7b/last\x7d\x7d\x7b\x7b/measurement\x7d\x7d],\n"
  ++ "            \x7d,\n"
  ++ "            \x7b\x7b/result\x7d\x7d\n"
  ++ "        ];\n"
  ++ "        var title = \x27\x7b\x7btitle\x7d\x7d\x27;\n"
  ++ "\n"
  ++ "        data = data.map(a => Object.assign(a, \x7b boxpoints: \x27all\x27, pointpos: 0, type: \x27"
  ++ type
  ++ "\x27, box: \x7bvisible: true\x7d, meanline: \x7bvisible: true\x7d \x7d));\n"
  ++ "        var layout = \x7b title: \x7b text: title \x7d, showlegend: "
  ++ r.m_show_legend
  ++ ", yaxis: \x7b title: \x27time per unit\x27"
  ++ r.m_range_mode
  ++ ", autorange: true \x7d \x7d;\n"
  ++ "        Plotly.newPlot(\x27"
  ++ id
  ++ "\x27, data, layout, \x7bresponsive: true\x7d);\n"
  ++ "    </script>\n"

/-- Resolution of the variadic `Strings const&... s` forwarded to `skeleton`,
whose parameters default to `id = "mydiv"` and `plot_type = ""`. -/
def resolveExtras : List String → String × String
  | [] => ("mydiv", "")
  | [id] => (id, "")
  | id :: pt :: _ => (id, pt)

/-- `render_to(bench, s...)` (source lines 271-274): builds the template via
`skeleton` and lets the external renderer write into the stream.  The external
`ankerl::nanobench::render` is abstracted by `render`, giving the bytes it
writes for a template and a benchmark. -/
def HtmlGraphRenderer.render_to {β : Type} (render : String → β → String)
    (r : HtmlGraphRenderer) (b : β) (extras : List String) : HtmlGraphRenderer :=
  { r with m_file := r.m_file.write (render (r.skeleton (resolveExtras extras).1 (resolveExtras extras).2) b) }

/-- `render_graph(bench, s...)` from `nanobench_html_graph_doctest_main.hpp`
(source lines 60-66): if the global `graph_renderer` pointer is null, nothing
is done; otherwise the call is delegated to `render_to` on the pointee.  The
global pointer together with the pointee is modelled as an
`Option HtmlGraphRenderer`, and the function returns the updated state. -/
def render_graph {β : Type} (render : String → β → String)
    (graph_renderer : Option HtmlGraphRenderer) (b : β) (extras : List String) :
    Option HtmlGraphRenderer :=
  match graph_renderer with
  | none => none
  | some r => some (r.render_to render b extras)

/-- Claim C1 counterexample.  Constructing a sink and calling `open` on an
unopenable path raises the error but does NOT leave every field of the sink
unchanged: the stored filename `m_filename` has changed from `""` to the
attempted path, and the stream's fail flag is now set. -/
theorem c1_counterexample :
    ((HtmlGraphRenderer.construct "violin").openFile (fun _ => false) "x.html").2.isSome = true
    ∧ ¬ (((HtmlGraphRenderer.construct "violin").openFile (fun _ => false) "x.html").1.m_filename
          = (HtmlGraphRenderer.construct "violin").m_filename
        ∧ ((HtmlGraphRenderer.construct "violin").openFile (fun _ => false) "x.html").1.m_file
          = (HtmlGraphRenderer.construct "violin").m_file) := by
  decide

/-- Claim C1, amended.  If `open(path)` fails because the path cannot be
opened, it raises `OutputUnavailable` and the sink remains in the Constructed
state: no file is attached, nothing has been written, and the display options
are unchanged.  However the sink is not entirely unchanged: `m_filename` now
holds the failed path and the stream's fail flag is set (so `operator bool`
returns false). -/
theorem c1_amended (fs : String → Bool) (r : HtmlGraphRenderer) (path : String)
    (hopen : r.m_file.isOpen = false) (hfs : fs path = false) :
    (r.openFile fs path).2.isSome = true
    ∧ (r.openFile fs path).1.m_file.isOpen = false
    ∧ (r.openFile fs path).1.m_file.content = r.m_file.content
    ∧ (r.openFile fs path).1.m_filename = path
    ∧ (r.openFile fs path).1.m_file.good = false
    ∧ (r.openFile fs path).1.m_plot_type = r.m_plot_type
    ∧ (r.openFile fs path).1.m_show_legend = r.m_show_legend
    ∧ (r.openFile fs path).1.m_show_epochs = r.m_show_epochs
    ∧ (r.openFile fs path).1.m_range_mode = r.m_range_mode := by
  simp [HtmlGraphRenderer.openFile, StreamState.openFile, hopen, hfs]

/-- Claim C1 amended, witness at a concrete input. -/
theorem c1_amended_witness :
    ((HtmlGraphRenderer.construct "violin").m_file.isOpen = false
      ∧ (fun _ : String => false) "x.html" = false)
    ∧ (((HtmlGraphRenderer.construct "violin").openFile (fun _ => false) "x.html").2.isSome = true
    ∧ ((HtmlGraphRenderer.construct "violin").openFile (fun _ => false) "x.html").1.m_file.isOpen = false
    ∧ ((HtmlGraphRenderer.construct "violin").openFile (fun _ => false) "x.html").1.m_file.content
        = (HtmlGraphRenderer.construct "violin").m_file.content
    ∧ ((HtmlGraphRenderer.construct "violin").openFile (fun _ => false) "x.html").1.m_filename = "x.html"
    ∧ ((HtmlGraphRenderer.construct "violin").openFile (fun _ => false) "x.html").1.m_file.good = false
    ∧ ((HtmlGraphRenderer.construct "violin").openFile (fun _ => false) "x.html").1.m_plot_type
        = (HtmlGraphRenderer.construct "violin").m_plot_type
    ∧ ((HtmlGraphRenderer.construct "violin").openFile (fun _ => false) "x.html").1.m_show_legend
        = (HtmlGraphRenderer.construct "violin").m_show_legend
    ∧ ((HtmlGraphRenderer.construct "violin").openFile (fun _ => false) "x.html").1.m_show_epochs
        = (HtmlGraphRenderer.construct "violin").m_show_epochs
    ∧ ((HtmlGraphRenderer.construct "violin").openFile (fun _ => false) "x.html").1.m_range_mode
        = (HtmlGraphRenderer.construct "violin").m_range_mode) :=
  ⟨by decide, c1_amended (fun _ => false) (HtmlGraphRenderer.construct "violin") "x.html"
      (by decide) (by decide)⟩

/-- Claim C4.  For a sink in the Constructed state (no file attached yet),
`open(path)` raises an error if and only if the path cannot be opened for
writing; on success it raises nothing, attaches the file and appends exactly
the prologue to the bytes written.  The error is returned to the caller,
never swallowed. -/
theorem c4_open_error_iff (fs : String → Bool) (r : HtmlGraphRenderer) (path : String)
    (hopen : r.m_file.isOpen = false) :
    ((r.openFile fs path).2.isSome = true ↔ fs path = false)
    ∧ (fs path = true →
        (r.openFile fs path).2 = none
        ∧ (r.openFile fs path).1.m_file.content = r.m_file.content ++ prologue
        ∧ (r.openFile fs path).1.m_file.isOpen = true) := by
  constructor
  · cases hfs : fs path <;>
      simp [HtmlGraphRenderer.openFile, StreamState.openFile, StreamState.write, hopen, hfs]
  · intro hfs
    simp [HtmlGraphRenderer.openFile, StreamState.openFile, StreamState.write, hopen, hfs]

/-- Claim C4, witness at concrete inputs. -/
theorem c4_open_error_iff_witness :
    ((HtmlGraphRenderer.construct "violin").m_file.isOpen = false)
    ∧ ((((HtmlGraphRenderer.construct "violin").openFile (fun _ => true) "a.html").2.isSome = true
          ↔ (fun _ : String => true) "a.html" = false)
      ∧ ((fun _ : String => true) "a.html" = true →
          ((HtmlGraphRenderer.construct "violin").openFile (fun _ => true) "a.html").2 = none
          ∧ ((HtmlGraphRenderer.construct "violin").openFile (fun _ => true) "a.html").1.m_file.content
              = (HtmlGraphRenderer.construct "violin").m_file.content ++ prologue
          ∧ ((HtmlGraphRenderer.construct "violin").openFile (fun _ => true) "a.html").1.m_file.isOpen = true)) :=
  ⟨by decide, c4_open_error_iff (fun _ => true) (HtmlGraphRenderer.construct "violin") "a.html" (by decide)⟩

/-- Claim C9.  `render_graph` called while the global sink pointer is null is
a no-op: for every benchmark, every renderer behaviour and every list of extra
arguments, the global state is returned unchanged (still null, no sink
touched, no bytes written) and no error is raised (the embedding of
`render_graph` has no error outcome at all on this path). -/
theorem c9_render_graph_null {β : Type} (render : String → β → String) (b : β)
    (extras : List String) :
    render_graph render none b extras = none :=
  rfl

/-!
Counting occurrences of a pattern inside the emitted template.

`countIn p s` is the number of positions of `s` at which the pattern `p`
starts.  The splice points of `skeleton` are all delimited by characters
(`'`, `%`, `)`, space, comma, newline) that do not occur in the patterns of
interest (`rangemode`, `epochs`), so the count distributes over the
concatenation that builds the template.
-/

/-- Number of (possibly overlapping) occurrences of `p` in `s`. -/
def countIn (p : List Char) : List Char → Nat
  | [] => if p.isPrefixOf ([] : List Char) then 1 else 0
  | c :: s => (if p.isPrefixOf (c :: s) then 1 else 0) + countIn p s

lemma countIn_cons (p : List Char) (c : Char) (s : List Char) :
    countIn p (c :: s) = (if p.isPrefixOf (c :: s) then 1 else 0) + countIn p s := rfl

lemma countIn_nil {p : List Char} (hp : p ≠ []) : countIn p [] = 0 := by
  cases p with
  | nil => exact absurd rfl hp
  | cons a as => simp [countIn, List.isPrefixOf]

/-- A pattern that avoids the character `c` starts within `l ++ c :: t` iff it
starts within `l`: an occurrence cannot straddle the separator. -/
lemma prefix_append_cons {p l t : List Char} {c : Char} (hc : c ∉ p) :
    p <+: l ++ c :: t ↔ p <+: l := by
  constructor
  · intro h
    by_cases hlen : p.length ≤ l.length
    · exact List.prefix_of_prefix_length_le h (List.prefix_append l (c :: t)) hlen
    · exfalso
      obtain ⟨t2, ht⟩ := h
      have hlen2 : l.length ≤ p.length := Nat.le_of_lt (Nat.lt_of_not_le hlen)
      have hdrop : p.drop l.length ++ t2 = c :: t := by
        have h3 := congrArg (List.drop l.length) ht
        rwa [List.drop_append_of_le_length hlen2, List.drop_left] at h3
      have hne : p.drop l.length ≠ [] := by
        intro hnil
        rw [List.drop_eq_nil_iff] at hnil
        exact hlen hnil
      obtain ⟨x, xs, hx⟩ := List.exists_cons_of_ne_nil hne
      rw [hx, List.cons_append] at hdrop
      injection hdrop with h1 _
      apply hc
      have hmem : c ∈ p.drop l.length := by
        rw [hx, h1]
        exact List.mem_cons_self _ _
      exact List.drop_subset _ _ hmem
  · intro h
    exact h.trans (List.prefix_append l (c :: t))

lemma isPrefixOf_append_cons {p l t : List Char} {c : Char} (hc : c ∉ p) :
    p.isPrefixOf (l ++ c :: t) = p.isPrefixOf l := by
  rw [Bool.eq_iff_iff, List.isPrefixOf_iff_prefix, List.isPrefixOf_iff_prefix]
  exact prefix_append_cons hc

/-- Occurrence counting distributes over an append separated by a character
that the pattern avoids. -/
lemma countIn_append_cons (p : List Char) {c : Char} (hc : c ∉ p) (a b : List Char) :
    countIn p (a ++ c :: b) = countIn p a + countIn p b := by
  induction a with
  | nil =>
    have h : p.isPrefixOf ([] ++ c :: b) = p.isPrefixOf [] := isPrefixOf_append_cons hc
    simp only [List.nil_append] at h
    rw [List.nil_append, countIn_cons, h]
    rfl
  | cons x a ih =>
    rw [List.cons_append, countIn_cons, countIn_cons, ih]
    have h : p.isPrefixOf (x :: (a ++ c :: b)) = p.isPrefixOf (x :: a) := by
      have h2 := isPrefixOf_append_cons (p := p) (c := c) (l := x :: a) (t := b) hc
      simpa using h2
    rw [h]
    omega

/-- The count is positive exactly when the pattern occurs as an infix. -/
lemma countIn_pos_iff (p : List Char) (s : List Char) : 0 < countIn p s ↔ p <:+: s := by
  induction s with
  | nil =>
    rw [List.infix_nil]
    cases p with
    | nil => simp [countIn, List.isPrefixOf]
    | cons q qs => simp [countIn, List.isPrefixOf]
  | cons c s ih =>
    rw [countIn_cons, List.infix_cons_iff]
    cases hb : p.isPrefixOf (c :: s) with
    | true =>
      have h : p <+: c :: s := List.isPrefixOf_iff_prefix.mp hb
      simp [h]
    | false =>
      have h : ¬ (p <+: c :: s) := by
        rw [← List.isPrefixOf_iff_prefix, hb]
        simp
      simp [h, ih]

/-- A longer pattern occurs at most as often as any of its prefixes. -/
lemma countIn_le_of_prefix {q p : List Char} (h : q <+: p) (s : List Char) :
    countIn p s ≤ countIn q s := by
  induction s with
  | nil =>
    cases p with
    | nil =>
      have hq : q = [] := List.prefix_nil.mp h
      subst hq
      exact Nat.le_refl _
    | cons x xs =>
      have hz : countIn (x :: xs) [] = 0 := countIn_nil (by simp)
      rw [hz]
      exact Nat.zero_le _
  | cons c s ih =>
    rw [countIn_cons, countIn_cons]
    cases hp : p.isPrefixOf (c :: s) with
    | true =>
      have hq : q.isPrefixOf (c :: s) = true := by
        rw [List.isPrefixOf_iff_prefix]
        exact h.trans (List.isPrefixOf_iff_prefix.mp hp)
      rw [hq]
      simp only [if_pos]
      omega
    | false =>
      have hle : countIn p s ≤ (if q.isPrefixOf (c :: s) = true then 1 else 0) + countIn q s :=
        Nat.le_trans ih (Nat.le_add_left _ _)
      simpa using hle

/-- Splitting the count at a literal chunk whose last character the pattern
avoids. -/
lemma countIn_lit_rest (p lit rest : List Char) (d : Char) (hp : p ≠ []) (hd : d ∉ p)
    (hsplit : lit.dropLast ++ [d] = lit) :
    countIn p (lit ++ rest) = countIn p lit + countIn p rest := by
  have h1 : countIn p (lit ++ rest) = countIn p lit.dropLast + countIn p rest := by
    conv_lhs => rw [← hsplit]
    rw [List.append_assoc, List.singleton_append]
    exact countIn_append_cons p hd _ _
  have h2 : countIn p lit = countIn p lit.dropLast := by
    conv_lhs => rw [← hsplit]
    rw [countIn_append_cons p hd lit.dropLast [], countIn_nil hp]
    omega
  rw [h1, h2]

/-- Splitting the count after a spliced-in variable chunk, when the following
literal starts with a character the pattern avoids. -/
lemma countIn_var_lit (p x lit rest : List Char) (d : Char) (hp : p ≠ []) (hd : d ∉ p)
    (hhead : lit.head? = some d) :
    countIn p (x ++ (lit ++ rest)) = countIn p x + countIn p (lit ++ rest) := by
  cases lit with
  | nil => simp at hhead
  | cons e l =>
    have hde : e = d := by simpa using hhead
    rw [hde, List.cons_append, countIn_append_cons p hd x (l ++ rest), countIn_cons]
    have hpre : p.isPrefixOf (d :: (l ++ rest)) = false := by
      cases hb : p.isPrefixOf (d :: (l ++ rest)) with
      | false => rfl
      | true =>
        exfalso
        have hpp := List.isPrefixOf_iff_prefix.mp hb
        obtain ⟨q, qs, hq⟩ := List.exists_cons_of_ne_nil hp
        rw [hq] at hpp
        obtain ⟨t2, ht⟩ := hpp
        rw [List.cons_append] at ht
        injection ht with h1 _
        apply hd
        rw [hq, ← h1]
        exact List.mem_cons_self _ _
    rw [hpre]
    simp

/-- The character data of the emitted template, as a right-nested
concatenation of the literal chunks and the spliced-in strings. -/
lemma skeleton_data (r : HtmlGraphRenderer) (id pt : String) :
    (r.skeleton id pt).data =
      "    <div id=\x27".data
      ++ (id.data
      ++ ("\x27>\n".data
      ++ ("      <div class=\x27plot-container plotly\x27 style=\x27width: 100%;\x27></div>\n".data
      ++ ("    </div>\n".data
      ++ ("    <script>\n".data
      ++ ("        var data = [\n".data
      ++ ("            \x7b\x7b#result\x7d\x7d\x7b\n".data
      ++ ("                name: \x27\x7b\x7bname\x7d\x7d (error: \x27 + (100*\x7b\x7bmedianAbsolutePercentError(elapsed)\x7d\x7d).toFixed(2) + \x27%".data
      ++ (r.m_show_epochs.data
      ++ (")\x27,\n".data
      ++ ("                y: [\x7b\x7b#measurement\x7d\x7d\x7b\x7belapsed\x7d\x7d\x7b\x7b^-last\x7d\x7d, \x7b\x7b/last\x7d\x7d\x7b\x7b/measurement\x7d\x7d],\n".data
      ++ ("            \x7d,\n".data
      ++ ("            \x7b\x7b/result\x7d\x7d\n".data
      ++ ("        ];\n".data
      ++ ("        var title = \x27\x7b\x7btitle\x7d\x7d\x27;\n".data
      ++ ("\n".data
      ++ ("        data = data.map(a => Object.assign(a, \x7b boxpoints: \x27all\x27, pointpos: 0, type: \x27".data
      ++ ((if !pt.isEmpty then pt else r.m_plot_type).data
      ++ ("\x27, box: \x7bvisible: true\x7d, meanline: \x7bvisible: true\x7d \x7d));\n".data
      ++ ("        var layout = \x7b title: \x7b text: title \x7d, showlegend: ".data
      ++ (r.m_show_legend.data
      ++ (", yaxis: \x7b title: \x27time per unit\x27".data
      ++ (r.m_range_mode.data
      ++ (", autorange: true \x7d \x7d;\n".data
      ++ ("        Plotly.newPlot(\x27".data
      ++ (id.data
      ++ ("\x27, data, layout, \x7bresponsive: true\x7d);\n".data
      ++ "    </script>\n".data))))))))))))))))))))))))))) := by
  show
    ("    <div id=\x27" ++ id ++ "\x27>\n"
      ++ "      <div class=\x27plot-container plotly\x27 style=\x27width: 100%;\x27></div>\n"
      ++ "    </div>\n"
      ++ "    <script>\n"
      ++ "        var data = [\n"
      ++ "            \x7b\x7b#result\x7d\x7d\x7b\n"
      ++ "                name: \x27\x7b\x7bname\x7d\x7d (error: \x27 + (100*\x7b\x7bmedianAbsolutePercentError(elapsed)\x7d\x7d).toFixed(2) + \x27%"
      ++ r.m_show_epochs
      ++ ")\x27,\n"
      ++ "                y: [\x7b\x7b#measurement\x7d\x7d\x7b\x7belapsed\x7d\x7d\x7b\x7b^-last\x7d\x7d, \x7b\x7b/last\x7d\x7d\x7b\x7b/measurement\x7d\x7d],\n"
      ++ "            \x7d,\n"
      ++ "            \x7b\x7b/result\x7d\x7d\n"
      ++ "        ];\n"
      ++ "        var title = \x27\x7b\x7btitle\x7d\x7d\x27;\n"
      ++ "\n"
      ++ "        data = data.map(a => Object.assign(a, \x7b boxpoints: \x27all\x27, pointpos: 0, type: \x27"
      ++ (if !pt.isEmpty then pt else r.m_plot_type)
      ++ "\x27, box: \x7bvisible: true\x7d, meanline: \x7bvisible: true\x7d \x7d));\n"
      ++ "        var layout = \x7b title: \x7b text: title \x7d, showlegend: "
      ++ r.m_show_legend
      ++ ", yaxis: \x7b title: \x27time per unit\x27"
      ++ r.m_range_mode
      ++ ", autorange: true \x7d \x7d;\n"
      ++ "        Plotly.newPlot(\x27"
      ++ id
      ++ "\x27, data, layout, \x7bresponsive: true\x7d);\n"
      ++ "    </script>\n").data = _
  repeat rw [String.data_append]
  repeat rw [List.append_assoc]

/-- Distribution of occurrence counting over the skeleton template: for a
pattern avoiding the delimiter characters that surround every splice point
(quote, newline, percent, closing parenthesis, space, comma), the number of
occurrences in the emitted block is the sum of the occurrences in the literal
chunks and in the spliced-in option strings. -/
lemma countIn_skeleton (p : List Char) (hp : p ≠ []) (hq : '\x27' ∉ p) (hn : '\n' ∉ p)
    (hpc : '%' ∉ p) (hcp : ')' ∉ p) (hsp : ' ' ∉ p) (hcm : ',' ∉ p)
    (r : HtmlGraphRenderer) (id pt : String) :
    countIn p (r.skeleton id pt).data =
      countIn p "    <div id=\x27".data
      + countIn p id.data
      + countIn p "\x27>\n".data
      + countIn p "      <div class=\x27plot-container plotly\x27 style=\x27width: 100%;\x27></div>\n".data
      + countIn p "    </div>\n".data
      + countIn p "    <script>\n".data
      + countIn p "        var data = [\n".data
      + countIn p "            \x7b\x7b#result\x7d\x7d\x7b\n".data
      + countIn p "                name: \x27\x7b\x7bname\x7d\x7d (error: \x27 + (100*\x7b\x7bmedianAbsolutePercentError(elapsed)\x7d\x7d).toFixed(2) + \x27%".data
      + countIn p r.m_show_epochs.data
      + countIn p ")\x27,\n".data
      + countIn p "                y: [\x7b\x7b#measurement\x7d\x7d\x7b\x7belapsed\x7d\x7d\x7b\x7b^-last\x7d\x7d, \x7b\x7b/last\x7d\x7d\x7b\x7b/measurement\x7d\x7d],\n".data
      + countIn p "            \x7d,\n".data
      + countIn p "            \x7b\x7b/result\x7d\x7d\n".data
      + countIn p "        ];\n".data
      + countIn p "        var title = \x27\x7b\x7btitle\x7d\x7d\x27;\n".data
      + countIn p "\n".data
      + countIn p "        data = data.map(a => Object.assign(a, \x7b boxpoints: \x27all\x27, pointpos: 0, type: \x27".data
      + countIn p (if !pt.isEmpty then pt else r.m_plot_type).data
      + countIn p "\x27, box: \x7bvisible: true\x7d, meanline: \x7bvisible: true\x7d \x7d));\n".data
      + countIn p "        var layout = \x7b title: \x7b text: title \x7d, showlegend: ".data
      + countIn p r.m_show_legend.data
      + countIn p ", yaxis: \x7b title: \x27time per unit\x27".data
      + countIn p r.m_range_mode.data
      + countIn p ", autorange: true \x7d \x7d;\n".data
      + countIn p "        Plotly.newPlot(\x27".data
      + countIn p id.data
      + countIn p "\x27, data, layout, \x7bresponsive: true\x7d);\n".data
      + countIn p "    </script>\n".data := by
  rw [skeleton_data]
  rw [countIn_lit_rest p "    <div id=\x27".data _ '\x27' hp hq (by decide)]
  rw [countIn_var_lit p _ "\x27>\n".data _ '\x27' hp hq (by decide)]
  rw [countIn_lit_rest p "\x27>\n".data _ '\n' hp hn (by decide)]
  rw [countIn_lit_rest p "      <div class=\x27plot-container plotly\x27 style=\x27width: 100%;\x27></div>\n".data _ '\n' hp hn (by decide)]
  rw [countIn_lit_rest p "    </div>\n".data _ '\n' hp hn (by decide)]
  rw [countIn_lit_rest p "    <script>\n".data _ '\n' hp hn (by decide)]
  rw [countIn_lit_rest p "        var data = [\n".data _ '\n' hp hn (by decide)]
  rw [countIn_lit_rest p "            \x7b\x7b#result\x7d\x7d\x7b\n".data _ '\n' hp hn (by decide)]
  rw [countIn_lit_rest p "                name: \x27\x7b\x7bname\x7d\x7d (error: \x27 + (100*\x7b\x7bmedianAbsolutePercentError(elapsed)\x7d\x7d).toFixed(2) + \x27%".data _ '%' hp hpc (by decide)]
  rw [countIn_var_lit p _ ")\x27,\n".data _ ')' hp hcp (by decide)]
  rw [countIn_lit_rest p ")\x27,\n".data _ '\n' hp hn (by decide)]
  rw [countIn_lit_rest p "                y: [\x7b\x7b#measurement\x7d\x7d\x7b\x7belapsed\x7d\x7d\x7b\x7b^-last\x7d\x7d, \x7b\x7b/last\x7d\x7d\x7b\x7b/measurement\x7d\x7d],\n".data _ '\n' hp hn (by decide)]
  rw [countIn_lit_rest p "            \x7d,\n".data _ '\n' hp hn (by decide)]
  rw [countIn_lit_rest p "            \x7b\x7b/result\x7d\x7d\n".data _ '\n' hp hn (by decide)]
  rw [countIn_lit_rest p "        ];\n".data _ '\n' hp hn (by decide)]
  rw [countIn_lit_rest p "        var title = \x27\x7b\x7btitle\x7d\x7d\x27;\n".data _ '\n' hp hn (by decide)]
  rw [countIn_lit_rest p "\n".data _ '\n' hp hn (by decide)]
  rw [countIn_lit_rest p "        data = data.map(a => Object.assign(a, \x7b boxpoints: \x27all\x27, pointpos: 0, type: \x27".data _ '\x27' hp hq (by decide)]
  rw [countIn_var_lit p _ "\x27, box: \x7bvisible: true\x7d, meanline: \x7bvisible: true\x7d \x7d));\n".data _ '\x27' hp hq (by decide)]
  rw [countIn_lit_rest p "\x27, box: \x7bvisible: true\x7d, meanline: \x7bvisible: true\x7d \x7d));\n".data _ '\n' hp hn (by decide)]
  rw [countIn_lit_rest p "        var layout = \x7b title: \x7b text: title \x7d, showlegend: ".data _ ' ' hp hsp (by decide)]
  rw [countIn_var_lit p _ ", yaxis: \x7b title: \x27time per unit\x27".data _ ',' hp hcm (by decide)]
  rw [countIn_lit_rest p ", yaxis: \x7b title: \x27time per unit\x27".data _ '\x27' hp hq (by decide)]
  rw [countIn_var_lit p _ ", autorange: true \x7d \x7d;\n".data _ ',' hp hcm (by decide)]
  rw [countIn_lit_rest p ", autorange: true \x7d \x7d;\n".data _ '\n' hp hn (by decide)]
  rw [countIn_lit_rest p "        Plotly.newPlot(\x27".data _ '\x27' hp hq (by decide)]
  rw [countIn_var_lit p _ "\x27, data, layout, \x7bresponsive: true\x7d);\n".data _ '\x27' hp hq (by decide)]
  rw [countIn_lit_rest p "\x27, data, layout, \x7bresponsive: true\x7d);\n".data _ '\n' hp hn (by decide)]
  omega

/-- Claim C5.  For every call `skeleton(id, plotTypeOverride)`, the emitted
block is the one obtained from the resolved plot type (the override when
non-empty, the sink's configured `m_plot_type` otherwise), and the block
contains the resolved type spliced into its `type:` field. -/
theorem c5_plot_type_override (r : HtmlGraphRenderer) (id pt : String) :
    r.skeleton id pt
      = HtmlGraphRenderer.skeleton
          { r with m_plot_type := if !pt.isEmpty then pt else r.m_plot_type } id ""
    ∧ ("type: \x27" ++ (if !pt.isEmpty then pt else r.m_plot_type) ++ "\x27").data
        <:+: (r.skeleton id pt).data := by
  constructor
  · rfl
  · refine ⟨"    <div id=\x27".data ++ id.data ++ "\x27>\n".data
      ++ "      <div class=\x27plot-container plotly\x27 style=\x27width: 100%;\x27></div>\n".data
      ++ "    </div>\n".data ++ "    <script>\n".data ++ "        var data = [\n".data
      ++ "            \x7b\x7b#result\x7d\x7d\x7b\n".data
      ++ "                name: \x27\x7b\x7bname\x7d\x7d (error: \x27 + (100*\x7b\x7bmedianAbsolutePercentError(elapsed)\x7d\x7d).toFixed(2) + \x27%".data
      ++ r.m_show_epochs.data ++ ")\x27,\n".data
      ++ "                y: [\x7b\x7b#measurement\x7d\x7d\x7b\x7belapsed\x7d\x7d\x7b\x7b^-last\x7d\x7d, \x7b\x7b/last\x7d\x7d\x7b\x7b/measurement\x7d\x7d],\n".data
      ++ "            \x7d,\n".data ++ "            \x7b\x7b/result\x7d\x7d\n".data
      ++ "        ];\n".data ++ "        var title = \x27\x7b\x7btitle\x7d\x7d\x27;\n".data
      ++ "\n".data
      ++ "        data = data.map(a => Object.assign(a, \x7b boxpoints: \x27all\x27, pointpos: 0, ".data,
      ", box: \x7bvisible: true\x7d, meanline: \x7bvisible: true\x7d \x7d));\n".data
      ++ "        var layout = \x7b title: \x7b text: title \x7d, showlegend: ".data
      ++ r.m_show_legend.data
      ++ ", yaxis: \x7b title: \x27time per unit\x27".data
      ++ r.m_range_mode.data
      ++ ", autorange: true \x7d \x7d;\n".data
      ++ "        Plotly.newPlot(\x27".data ++ id.data
      ++ "\x27, data, layout, \x7bresponsive: true\x7d);\n".data
      ++ "    </script>\n".data, ?_⟩
    rw [skeleton_data]
    repeat rw [String.data_append]
    repeat rw [List.append_assoc]
    rfl

/-- Claim C8.  The emitted layout contains `showlegend: true` when the sink's
showLegend option was set to true, and `showlegend: false` when it was set to
false. -/
theorem c8_showlegend (r : HtmlGraphRenderer) (id pt : String) :
    ("showlegend: true").data <:+: ((r.showlegend true).skeleton id pt).data
    ∧ ("showlegend: false").data <:+: ((r.showlegend false).skeleton id pt).data := by
  constructor
  · refine ⟨"    <div id=\x27".data ++ id.data ++ "\x27>\n".data
      ++ "      <div class=\x27plot-container plotly\x27 style=\x27width: 100%;\x27></div>\n".data
      ++ "    </div>\n".data ++ "    <script>\n".data ++ "        var data = [\n".data
      ++ "            \x7b\x7b#result\x7d\x7d\x7b\n".data
      ++ "                name: \x27\x7b\x7bname\x7d\x7d (error: \x27 + (100*\x7b\x7bmedianAbsolutePercentError(elapsed)\x7d\x7d).toFixed(2) + \x27%".data
      ++ r.m_show_epochs.data ++ ")\x27,\n".data
      ++ "                y: [\x7b\x7b#measurement\x7d\x7d\x7b\x7belapsed\x7d\x7d\x7b\x7b^-last\x7d\x7d, \x7b\x7b/last\x7d\x7d\x7b\x7b/measurement\x7d\x7d],\n".data
      ++ "            \x7d,\n".data ++ "            \x7b\x7b/result\x7d\x7d\n".data
      ++ "        ];\n".data ++ "        var title = \x27\x7b\x7btitle\x7d\x7d\x27;\n".data
      ++ "\n".data
      ++ "        data = data.map(a => Object.assign(a, \x7b boxpoints: \x27all\x27, pointpos: 0, type: \x27".data
      ++ (if !pt.isEmpty then pt else r.m_plot_type).data
      ++ "\x27, box: \x7bvisible: true\x7d, meanline: \x7bvisible: true\x7d \x7d));\n".data
      ++ "        var layout = \x7b title: \x7b text: title \x7d, ".data,
      ", yaxis: \x7b title: \x27time per unit\x27".data
      ++ r.m_range_mode.data
      ++ ", autorange: true \x7d \x7d;\n".data
      ++ "        Plotly.newPlot(\x27".data ++ id.data
      ++ "\x27, data, layout, \x7bresponsive: true\x7d);\n".data
      ++ "    </script>\n".data, ?_⟩
    rw [skeleton_data]
    repeat rw [List.append_assoc]
    rfl
  · refine ⟨"    <div id=\x27".data ++ id.data ++ "\x27>\n".data
      ++ "      <div class=\x27plot-container plotly\x27 style=\x27width: 100%;\x27></div>\n".data
      ++ "    </div>\n".data ++ "    <script>\n".data ++ "        var data = [\n".data
      ++ "            \x7b\x7b#result\x7d\x7d\x7b\n".data
      ++ "                name: \x27\x7b\x7bname\x7d\x7d (error: \x27 + (100*\x7b\x7bmedianAbsolutePercentError(elapsed)\x7d\x7d).toFixed(2) + \x27%".data
      ++ r.m_show_epochs.data ++ ")\x27,\n".data
      ++ "                y: [\x7b\x7b#measurement\x7d\x7d\x7b\x7belapsed\x7d\x7d\x7b\x7b^-last\x7d\x7d, \x7b\x7b/last\x7d\x7d\x7b\x7b/measurement\x7d\x7d],\n".data
      ++ "            \x7d,\n".data ++ "            \x7b\x7b/result\x7d\x7d\n".data
      ++ "        ];\n".data ++ "        var title = \x27\x7b\x7btitle\x7d\x7d\x27;\n".data
      ++ "\n".data
      ++ "        data = data.map(a => Object.assign(a, \x7b boxpoints: \x27all\x27, pointpos: 0, type: \x27".data
      ++ (if !pt.isEmpty then pt else r.m_plot_type).data
      ++ "\x27, box: \x7bvisible: true\x7d, meanline: \x7bvisible: true\x7d \x7d));\n".data
      ++ "        var layout = \x7b title: \x7b text: title \x7d, ".data,
      ", yaxis: \x7b title: \x27time per unit\x27".data
      ++ r.m_range_mode.data
      ++ ", autorange: true \x7d \x7d;\n".data
      ++ "        Plotly.newPlot(\x27".data ++ id.data
      ++ "\x27, data, layout, \x7bresponsive: true\x7d);\n".data
      ++ "    </script>\n".data, ?_⟩
    rw [skeleton_data]
    repeat rw [List.append_assoc]
    rfl

set_option maxRecDepth 4000 in
/-- Claim C7.  If the sink's showEpochs option is true, the emitted block
contains the label suffix `"; epochs: {{epochs}}"`; if it is false, the block
contains no occurrence of that substring.  The hypotheses state that the
caller-chosen id, plot-type override and the other option strings do not
themselves contain the word `epochs`, which rules out an occurrence smuggled
in through another splice point. -/
theorem c7_showepochs (r : HtmlGraphRenderer) (id pt : String)
    (hid : countIn "epochs".data id.data = 0)
    (hpt : countIn "epochs".data pt.data = 0)
    (hplot : countIn "epochs".data r.m_plot_type.data = 0)
    (hleg : countIn "epochs".data r.m_show_legend.data = 0)
    (hrange : countIn "epochs".data r.m_range_mode.data = 0) :
    ("; epochs: \x7b\x7bepochs\x7d\x7d").data <:+: ((r.showepochs true).skeleton id pt).data
    ∧ ¬ (("; epochs: \x7b\x7bepochs\x7d\x7d").data
          <:+: ((r.showepochs false).skeleton id pt).data) := by
  constructor
  · refine ⟨"    <div id=\x27".data ++ id.data ++ "\x27>\n".data
      ++ "      <div class=\x27plot-container plotly\x27 style=\x27width: 100%;\x27></div>\n".data
      ++ "    </div>\n".data ++ "    <script>\n".data ++ "        var data = [\n".data
      ++ "            \x7b\x7b#result\x7d\x7d\x7b\n".data
      ++ "                name: \x27\x7b\x7bname\x7d\x7d (error: \x27 + (100*\x7b\x7bmedianAbsolutePercentError(elapsed)\x7d\x7d).toFixed(2) + \x27%".data,
      ")\x27,\n".data
      ++ "                y: [\x7b\x7b#measurement\x7d\x7d\x7b\x7belapsed\x7d\x7d\x7b\x7b^-last\x7d\x7d, \x7b\x7b/last\x7d\x7d\x7b\x7b/measurement\x7d\x7d],\n".data
      ++ "            \x7d,\n".data ++ "            \x7b\x7b/result\x7d\x7d\n".data
      ++ "        ];\n".data ++ "        var title = \x27\x7b\x7btitle\x7d\x7d\x27;\n".data
      ++ "\n".data
      ++ "        data = data.map(a => Object.assign(a, \x7b boxpoints: \x27all\x27, pointpos: 0, type: \x27".data
      ++ (if !pt.isEmpty then pt else r.m_plot_type).data
      ++ "\x27, box: \x7bvisible: true\x7d, meanline: \x7bvisible: true\x7d \x7d));\n".data
      ++ "        var layout = \x7b title: \x7b text: title \x7d, showlegend: ".data
      ++ r.m_show_legend.data
      ++ ", yaxis: \x7b title: \x27time per unit\x27".data
      ++ r.m_range_mode.data
      ++ ", autorange: true \x7d \x7d;\n".data
      ++ "        Plotly.newPlot(\x27".data ++ id.data
      ++ "\x27, data, layout, \x7bresponsive: true\x7d);\n".data
      ++ "    </script>\n".data, ?_⟩
    rw [skeleton_data]
    repeat rw [List.append_assoc]
    rfl
  · intro hinf
    have hsub : "epochs".data <:+: ("; epochs: \x7b\x7bepochs\x7d\x7d").data :=
      ⟨"; ".data, ": \x7b\x7bepochs\x7d\x7d".data, by rfl⟩
    have hw : "epochs".data <:+: ((r.showepochs false).skeleton id pt).data :=
      hsub.trans hinf
    have hcount : countIn "epochs".data ((r.showepochs false).skeleton id pt).data = 0 := by
      rw [countIn_skeleton "epochs".data (by decide) (by decide) (by decide) (by decide)
        (by decide) (by decide) (by decide)]
      have e1 : (r.showepochs false).m_show_epochs = "" := rfl
      have e2 : (r.showepochs false).m_plot_type = r.m_plot_type := rfl
      have e3 : (r.showepochs false).m_show_legend = r.m_show_legend := rfl
      have e4 : (r.showepochs false).m_range_mode = r.m_range_mode := rfl
      rw [e1, e2, e3, e4]
      have e5 : countIn "epochs".data (if !pt.isEmpty then pt else r.m_plot_type).data = 0 := by
        cases hb : pt.isEmpty
        · simpa using hpt
        · simpa using hplot
      rw [e5, hid, hleg, hrange]
      decide
    rw [← countIn_pos_iff] at hw
    omega

set_option maxRecDepth 4000 in
/-- Claim C6.  If the sink's rangeMode option is the empty string at the
moment of the render call, the emitted block contains no occurrence of the
substring `rangemode:`; if it is a non-empty string `m`, the block contains
exactly one occurrence of the substring `rangemode: '<m>'`.  The hypotheses
state that the caller-chosen id, plot-type override, the other option strings
and the mode itself do not contain the word `rangemode`, which rules out an
occurrence smuggled in through another splice point. -/
theorem c6_rangemode (r : HtmlGraphRenderer) (id pt m : String)
    (hid : countIn "rangemode".data id.data = 0)
    (hpt : countIn "rangemode".data pt.data = 0)
    (hplot : countIn "rangemode".data r.m_plot_type.data = 0)
    (heps : countIn "rangemode".data r.m_show_epochs.data = 0)
    (hleg : countIn "rangemode".data r.m_show_legend.data = 0)
    (hm : countIn "rangemode".data m.data = 0) :
    (m.isEmpty = true →
      ¬ (("rangemode:").data <:+: ((r.rangemode m).skeleton id pt).data))
    ∧ (m.isEmpty = false →
      countIn ("rangemode: \x27" ++ m ++ "\x27").data ((r.rangemode m).skeleton id pt).data
        = 1) := by
  constructor
  · intro hempty hinf
    have e : (r.rangemode m).m_range_mode = "" := by
      show (if !m.isEmpty then ", rangemode: \x27" ++ m ++ "\x27" else "") = ""
      rw [hempty]
      rfl
    have hsub : "rangemode".data <:+: ("rangemode:").data :=
      ⟨[], ":".data, by rfl⟩
    have hw : "rangemode".data <:+: ((r.rangemode m).skeleton id pt).data :=
      hsub.trans hinf
    have hcount : countIn "rangemode".data ((r.rangemode m).skeleton id pt).data = 0 := by
      rw [countIn_skeleton "rangemode".data (by decide) (by decide) (by decide) (by decide)
        (by decide) (by decide) (by decide)]
      have e2 : (r.rangemode m).m_show_epochs = r.m_show_epochs := rfl
      have e3 : (r.rangemode m).m_plot_type = r.m_plot_type := rfl
      have e4 : (r.rangemode m).m_show_legend = r.m_show_legend := rfl
      rw [e, e2, e3, e4]
      have e5 : countIn "rangemode".data (if !pt.isEmpty then pt else r.m_plot_type).data = 0 := by
        cases hb : pt.isEmpty
        · simpa using hpt
        · simpa using hplot
      rw [e5, hid, heps, hleg]
      decide
    rw [← countIn_pos_iff] at hw
    omega
  · intro hne
    have e : (r.rangemode m).m_range_mode = ", rangemode: \x27" ++ m ++ "\x27" := by
      show (if !m.isEmpty then ", rangemode: \x27" ++ m ++ "\x27" else "")
        = ", rangemode: \x27" ++ m ++ "\x27"
      rw [hne]
      rfl
    have hfrag : countIn "rangemode".data ((", rangemode: \x27" ++ m ++ "\x27" : String)).data
        = 1 := by
      repeat rw [String.data_append]
      rw [List.append_assoc]
      rw [countIn_lit_rest "rangemode".data ", rangemode: \x27".data _ '\x27' (by decide)
        (by decide) (by decide)]
      rw [show countIn "rangemode".data (m.data ++ "\x27".data)
          = countIn "rangemode".data (m.data ++ '\x27' :: []) from rfl]
      rw [countIn_append_cons "rangemode".data (by decide) m.data []]
      rw [hm, countIn_nil (by decide)]
      decide
    have hwcount : countIn "rangemode".data ((r.rangemode m).skeleton id pt).data = 1 := by
      rw [countIn_skeleton "rangemode".data (by decide) (by decide) (by decide) (by decide)
        (by decide) (by decide) (by decide)]
      have e2 : (r.rangemode m).m_show_epochs = r.m_show_epochs := rfl
      have e3 : (r.rangemode m).m_plot_type = r.m_plot_type := rfl
      have e4 : (r.rangemode m).m_show_legend = r.m_show_legend := rfl
      rw [e, e2, e3, e4]
      have e5 : countIn "rangemode".data (if !pt.isEmpty then pt else r.m_plot_type).data = 0 := by
        cases hb : pt.isEmpty
        · simpa using hpt
        · simpa using hplot
      rw [e5, hid, heps, hleg, hfrag]
      decide
    have hprefix : "rangemode".data <+: ("rangemode: \x27" ++ m ++ "\x27").data := by
      refine ⟨": \x27".data ++ m.data ++ "\x27".data, ?_⟩
      repeat rw [String.data_append]
      repeat rw [List.append_assoc]
      rfl
    have hle : countIn ("rangemode: \x27" ++ m ++ "\x27").data
        ((r.rangemode m).skeleton id pt).data
        ≤ countIn "rangemode".data ((r.rangemode m).skeleton id pt).data :=
      countIn_le_of_prefix hprefix _
    have hge : 0 < countIn ("rangemode: \x27" ++ m ++ "\x27").data
        ((r.rangemode m).skeleton id pt).data := by
      rw [countIn_pos_iff]
      refine ⟨"    <div id=\x27".data ++ id.data ++ "\x27>\n".data
        ++ "      <div class=\x27plot-container plotly\x27 style=\x27width: 100%;\x27></div>\n".data
        ++ "    </div>\n".data ++ "    <script>\n".data ++ "        var data = [\n".data
        ++ "            \x7b\x7b#result\x7d\x7d\x7b\n".data
        ++ "                name: \x27\x7b\x7bname\x7d\x7d (error: \x27 + (100*\x7b\x7bmedianAbsolutePercentError(elapsed)\x7d\x7d).toFixed(2) + \x27%".data
        ++ r.m_show_epochs.data ++ ")\x27,\n".data
        ++ "                y: [\x7b\x7b#measurement\x7d\x7d\x7b\x7belapsed\x7d\x7d\x7b\x7b^-last\x7d\x7d, \x7b\x7b/last\x7d\x7d\x7b\x7b/measurement\x7d\x7d],\n".data
        ++ "            \x7d,\n".data ++ "            \x7b\x7b/result\x7d\x7d\n".data
        ++ "        ];\n".data ++ "        var title = \x27\x7b\x7btitle\x7d\x7d\x27;\n".data
        ++ "\n".data
        ++ "        data = data.map(a => Object.assign(a, \x7b boxpoints: \x27all\x27, pointpos: 0, type: \x27".data
        ++ (if !pt.isEmpty then pt else r.m_plot_type).data
        ++ "\x27, box: \x7bvisible: true\x7d, meanline: \x7bvisible: true\x7d \x7d));\n".data
        ++ "        var layout = \x7b title: \x7b text: title \x7d, showlegend: ".data
        ++ r.m_show_legend.data
        ++ ", yaxis: \x7b title: \x27time per unit\x27".data
        ++ ", ".data,
        ", autorange: true \x7d \x7d;\n".data
        ++ "        Plotly.newPlot(\x27".data ++ id.data
        ++ "\x27, data, layout, \x7bresponsive: true\x7d);\n".data
        ++ "    </script>\n".data, ?_⟩
      rw [skeleton_data, e]
      repeat rw [String.data_append]
      repeat rw [List.append_assoc]
      rfl
    omega

/-!
Lifecycle traces.  A client of the sink performs a sequence of operations:
builder setters, `open`, and `render_to` calls; the destructor runs at the
end of the object's lifetime.  `runOps` replays such a sequence (a thrown
`open` error leaves the object in its post-throw state, matching a caller
that catches the exception and carries on).
-/

/-- One operation a client can perform on a sink. -/
inductive SinkOp (β : Type) where
  | showlegend : Bool → SinkOp β
  | showepochs : Bool → SinkOp β
  | rangemode : String → SinkOp β
  | openFile : String → SinkOp β
  | renderTo : β → List String → SinkOp β
deriving DecidableEq

/-- Replay one operation. -/
def runOp {β : Type} (fs : String → Bool) (render : String → β → String)
    (r : HtmlGraphRenderer) : SinkOp β → HtmlGraphRenderer
  | .showlegend b => r.showlegend b
  | .showepochs b => r.showepochs b
  | .rangemode s => r.rangemode s
  | .openFile path => (r.openFile fs path).1
  | .renderTo b extras => r.render_to render b extras

/-- Replay a sequence of operations. -/
def runOps {β : Type} (fs : String → Bool) (render : String → β → String) :
    HtmlGraphRenderer → List (SinkOp β) → HtmlGraphRenderer
  | r, [] => r
  | r, op :: ops => runOps fs render (runOp fs render r op) ops

/-- Number of `open` calls in a sequence. -/
def countOpens {β : Type} : List (SinkOp β) → Nat
  | [] => 0
  | SinkOp.openFile _ :: ops => countOpens ops + 1
  | _ :: ops => countOpens ops

/-- Whether an operation is one of the three builder setters. -/
def SinkOp.isSetter {β : Type} : SinkOp β → Bool
  | .showlegend _ => true
  | .showepochs _ => true
  | .rangemode _ => true
  | .openFile _ => false
  | .renderTo _ _ => false

lemma StreamState.write_isOpen (st : StreamState) (s : String) :
    (st.write s).isOpen = st.isOpen := by
  simp only [StreamState.write]
  split <;> rfl

/-- Invariant maintained along any lifecycle with at most one `open`: either
no file was ever attached and nothing has been written, or the file is
attached, the stream is healthy, and the written bytes start with the
prologue. -/
def SinkInv (r : HtmlGraphRenderer) : Prop :=
  (r.m_file.isOpen = false ∧ r.m_file.content = "")
  ∨ (r.m_file.isOpen = true ∧ r.m_file.good = true
      ∧ ∃ mid : List Char, r.m_file.content.data = prologue.data ++ mid)

lemma runOps_inv {β : Type} (fs : String → Bool) (render : String → β → String) :
    ∀ (ops : List (SinkOp β)) (r : HtmlGraphRenderer), SinkInv r →
      (r.m_file.isOpen = true → countOpens ops = 0) → countOpens ops ≤ 1 →
      SinkInv (runOps fs render r ops) := by
  intro ops
  induction ops with
  | nil =>
    intro r h _ _
    exact h
  | cons op ops ih =>
    intro r hinv hopen hcount
    cases op with
    | showlegend b => exact ih _ hinv (fun h => hopen h) hcount
    | showepochs b => exact ih _ hinv (fun h => hopen h) hcount
    | rangemode s => exact ih _ hinv (fun h => hopen h) hcount
    | openFile path =>
      have hc : countOpens ops + 1 ≤ 1 := hcount
      have hc0 : countOpens ops = 0 := by omega
      cases hro : r.m_file.isOpen with
      | true =>
        exfalso
        have h2 : countOpens ops + 1 = 0 := hopen hro
        omega
      | false =>
        apply ih
        · rcases hinv with ⟨h1, h2⟩ | ⟨h1, _, _⟩
          · cases hfs : fs path with
            | true =>
              refine Or.inr ⟨?_, ?_, ⟨[], ?_⟩⟩ <;>
                simp [runOp, HtmlGraphRenderer.openFile, StreamState.openFile,
                  StreamState.write, h1, h2, hfs]
            | false =>
              refine Or.inl ⟨?_, ?_⟩ <;>
                simp [runOp, HtmlGraphRenderer.openFile, StreamState.openFile, h1, h2, hfs]
          · rw [hro] at h1
            exact Bool.noConfusion h1
        · intro _
          exact hc0
        · omega
    | renderTo b extras =>
      apply ih
      · rcases hinv with ⟨h1, h2⟩ | ⟨h1, hg, mid, hc⟩
        · refine Or.inl ⟨?_, ?_⟩ <;>
            simp [runOp, HtmlGraphRenderer.render_to, StreamState.write, h1, h2]
        · refine Or.inr ⟨?_, ?_, ?_⟩
          · simp [runOp, HtmlGraphRenderer.render_to, StreamState.write, h1, hg]
          · simp [runOp, HtmlGraphRenderer.render_to, StreamState.write, h1, hg]
          · refine ⟨mid ++ (render (r.skeleton (resolveExtras extras).1
              (resolveExtras extras).2) b).data, ?_⟩
            simp [runOp, HtmlGraphRenderer.render_to, StreamState.write, h1, hg, hc,
              List.append_assoc]
      · intro h
        have h2 : (r.m_file.write (render (r.skeleton (resolveExtras extras).1
            (resolveExtras extras).2) b)).isOpen = true := h
        rw [StreamState.write_isOpen] at h2
        exact hopen h2
      · exact hcount

/-- Claim C2.  Along any sink lifecycle with at most one `open` call, if a
file was produced (the stream is attached when the destructor runs), the
bytes written start with the fixed prologue and, after destruction, end with
the fixed epilogue; and the destructor appends the epilogue if and only if
the sink is in the Open state, i.e. ever completed a successful `open`
(openness is never revoked, so at destruction time `isOpen` says exactly
whether the sink was ever Open). -/
theorem c2_prologue_epilogue (pt : String) {β : Type} (fs : String → Bool)
    (render : String → β → String) (ops : List (SinkOp β)) (h : countOpens ops ≤ 1) :
    ((runOps fs render (HtmlGraphRenderer.construct pt) ops).m_file.isOpen = true →
        prologue.data <+:
          ((runOps fs render (HtmlGraphRenderer.construct pt) ops).destruct).m_file.content.data
        ∧ epilogue.data <:+
          ((runOps fs render (HtmlGraphRenderer.construct pt) ops).destruct).m_file.content.data)
    ∧ (((runOps fs render (HtmlGraphRenderer.construct pt) ops).destruct).m_file.content
          = (runOps fs render (HtmlGraphRenderer.construct pt) ops).m_file.content ++ epilogue
        ↔ (runOps fs render (HtmlGraphRenderer.construct pt) ops).m_file.isOpen = true) := by
  have hinv := runOps_inv fs render ops (HtmlGraphRenderer.construct pt)
    (Or.inl ⟨rfl, rfl⟩)
    (fun hO => by simp [HtmlGraphRenderer.construct, StreamState.init] at hO)
    h
  rcases hinv with ⟨h1, h2⟩ | ⟨h1, hg, mid, hc⟩
  · have hd : (runOps fs render (HtmlGraphRenderer.construct pt) ops).destruct
        = runOps fs render (HtmlGraphRenderer.construct pt) ops := by
      simp [HtmlGraphRenderer.destruct, h1]
    constructor
    · intro hO
      rw [h1] at hO
      exact Bool.noConfusion hO
    · rw [hd, h1, h2]
      constructor
      · intro hEq
        exact absurd hEq (by decide)
      · intro hO
        exact Bool.noConfusion hO
  · have hw : ((runOps fs render (HtmlGraphRenderer.construct pt) ops).destruct).m_file.content
        = (runOps fs render (HtmlGraphRenderer.construct pt) ops).m_file.content ++ epilogue := by
      simp [HtmlGraphRenderer.destruct, StreamState.write, h1, hg]
    constructor
    · intro _
      constructor
      · rw [hw, String.data_append, hc]
        exact ⟨mid ++ epilogue.data, by rw [List.append_assoc]⟩
      · rw [hw, String.data_append]
        exact List.suffix_append _ _
    · rw [hw, h1]
      simp

/-- Claim C2, witness: a lifecycle consisting of one successful `open`. -/
theorem c2_prologue_epilogue_witness :
    countOpens ([SinkOp.openFile "a.html"] : List (SinkOp Unit)) ≤ 1
    ∧ (((runOps (fun _ => true) (fun t _ => t) (HtmlGraphRenderer.construct "violin")
          ([SinkOp.openFile "a.html"] : List (SinkOp Unit))).m_file.isOpen = true →
        prologue.data <+:
          ((runOps (fun _ => true) (fun t _ => t) (HtmlGraphRenderer.construct "violin")
            ([SinkOp.openFile "a.html"] : List (SinkOp Unit))).destruct).m_file.content.data
        ∧ epilogue.data <:+
          ((runOps (fun _ => true) (fun t _ => t) (HtmlGraphRenderer.construct "violin")
            ([SinkOp.openFile "a.html"] : List (SinkOp Unit))).destruct).m_file.content.data)
    ∧ (((runOps (fun _ => true) (fun t _ => t) (HtmlGraphRenderer.construct "violin")
          ([SinkOp.openFile "a.html"] : List (SinkOp Unit))).destruct).m_file.content
          = (runOps (fun _ => true) (fun t _ => t) (HtmlGraphRenderer.construct "violin")
            ([SinkOp.openFile "a.html"] : List (SinkOp Unit))).m_file.content ++ epilogue
        ↔ (runOps (fun _ => true) (fun t _ => t) (HtmlGraphRenderer.construct "violin")
          ([SinkOp.openFile "a.html"] : List (SinkOp Unit))).m_file.isOpen = true)) :=
  ⟨by decide,
    c2_prologue_epilogue "violin" (fun _ => true) (fun t _ => t)
      ([SinkOp.openFile "a.html"] : List (SinkOp Unit)) (by decide)⟩

lemma runOps_setters_m_file {β : Type} (fs : String → Bool) (render : String → β → String) :
    ∀ (ops : List (SinkOp β)) (r : HtmlGraphRenderer), (∀ op ∈ ops, op.isSetter = true) →
      (runOps fs render r ops).m_file = r.m_file := by
  intro ops
  induction ops with
  | nil =>
    intro r _
    rfl
  | cons op ops ih =>
    intro r hall
    have hop : op.isSetter = true := hall op (List.mem_cons_self _ _)
    have hrest : ∀ o ∈ ops, SinkOp.isSetter o = true := fun o ho =>
      hall o (List.mem_cons_of_mem _ ho)
    cases op with
    | showlegend b => exact ih _ hrest
    | showepochs b => exact ih _ hrest
    | rangemode s => exact ih _ hrest
    | openFile path => exact Bool.noConfusion hop
    | renderTo b extras => exact Bool.noConfusion hop

/-- Claim C10.  A sink that has been constructed and only configured (any
sequence of builder setters, never opened) still has `operator bool` true —
the stream carries no error flags although no file is attached; the predicate
first becomes false after a failed `open` or a failed write (a `render_to` on
the never-opened sink). -/
theorem c10_operator_bool (pt : String) {β : Type} (fs : String → Bool)
    (render : String → β → String) (ops : List (SinkOp β))
    (h : ∀ op ∈ ops, SinkOp.isSetter op = true) :
    ((runOps fs render (HtmlGraphRenderer.construct pt) ops).toBool = true
      ∧ (runOps fs render (HtmlGraphRenderer.construct pt) ops).m_file.isOpen = false)
    ∧ (∀ path, fs path = false →
        ((runOps fs render (HtmlGraphRenderer.construct pt) ops).openFile fs path).1.toBool
          = false)
    ∧ (∀ (b : β) (extras : List String),
        ((runOps fs render (HtmlGraphRenderer.construct pt) ops).render_to render b
          extras).toBool = false) := by
  have hm : (runOps fs render (HtmlGraphRenderer.construct pt) ops).m_file = StreamState.init :=
    runOps_setters_m_file fs render ops _ h
  refine ⟨⟨?_, ?_⟩, ?_, ?_⟩
  · simp [HtmlGraphRenderer.toBool, hm, StreamState.init]
  · simp [hm, StreamState.init]
  · intro path hfs
    simp [HtmlGraphRenderer.toBool, HtmlGraphRenderer.openFile, StreamState.openFile, hm,
      StreamState.init, hfs]
  · intro b extras
    simp [HtmlGraphRenderer.toBool, HtmlGraphRenderer.render_to, StreamState.write, hm,
      StreamState.init]

/-- Claim C10, witness: a sink configured with one setter and never opened. -/
theorem c10_operator_bool_witness :
    (∀ op ∈ ([SinkOp.showlegend true] : List (SinkOp Unit)), SinkOp.isSetter op = true)
    ∧ (((runOps (fun _ => false) (fun _ _ => "") (HtmlGraphRenderer.construct "violin")
          ([SinkOp.showlegend true] : List (SinkOp Unit))).toBool = true
        ∧ (runOps (fun _ => false) (fun _ _ => "") (HtmlGraphRenderer.construct "violin")
          ([SinkOp.showlegend true] : List (SinkOp Unit))).m_file.isOpen = false)
      ∧ (∀ path, (fun _ : String => false) path = false →
          ((runOps (fun _ => false) (fun _ _ => "") (HtmlGraphRenderer.construct "violin")
            ([SinkOp.showlegend true] : List (SinkOp Unit))).openFile (fun _ => false)
              path).1.toBool = false)
      ∧ (∀ (b : Unit) (extras : List String),
          ((runOps (fun _ => false) (fun _ _ => "") (HtmlGraphRenderer.construct "violin")
            ([SinkOp.showlegend true] : List (SinkOp Unit))).render_to (fun _ _ => "") b
              extras).toBool = false)) :=
  ⟨by decide,
    c10_operator_bool "violin" (fun _ => false) (fun _ _ => "")
      ([SinkOp.showlegend true] : List (SinkOp Unit)) (by decide)⟩

/-- Success of `open`: when no error is returned, the file is attached and the
stream is healthy. -/
lemma openFile_ok (fs : String → Bool) (r : HtmlGraphRenderer) (path : String)
    (h : (r.openFile fs path).2 = none) :
    (r.openFile fs path).1.m_file.isOpen = true
    ∧ (r.openFile fs path).1.m_file.good = true := by
  cases ho : r.m_file.isOpen with
  | true =>
    exfalso
    simp [HtmlGraphRenderer.openFile, StreamState.openFile, ho] at h
  | false =>
    cases hfs : fs path with
    | false =>
      exfalso
      simp [HtmlGraphRenderer.openFile, StreamState.openFile, ho, hfs] at h
    | true =>
      constructor <;>
        simp [HtmlGraphRenderer.openFile, StreamState.openFile, StreamState.write, ho, hfs]

/-- One observable program point of `main` in
`nanobench_html_graph_doctest_main.hpp`: whether the global `graph_renderer`
pointer is set, the state of the local sink `l_output` it points at, and
whether the test run (`ctx.run()`) is in progress. -/
structure HarnessState where
  graph_renderer_set : Bool
  l_output : HtmlGraphRenderer
  running : Bool
deriving DecidableEq

/-- The local sink constructed by `main` (source lines 91-94) with the
default `NANOBENCH_VIOLIN_OPTIONS` expansion (empty). -/
def l_output0 : HtmlGraphRenderer :=
  (HtmlGraphRenderer.construct "violin").showlegend true

/-- The sequence of program points of `main` (source lines 88-106), given the
file system and the parsed `--renderto=` value: construction; then, when the
flag is non-empty, the assignment `graph_renderer = &l_output` (line 101)
followed by `graph_renderer->open(...)` (line 102) — if `open` throws, the
exception terminates the program before `ctx.run()`; otherwise (or when the
flag is empty) `ctx.run()` executes. -/
def mainTrace (fs : String → Bool) (output_filename : String) : List HarnessState :=
  if output_filename.length > 0 then
    match l_output0.openFile fs output_filename with
    | (r2, some _) =>
      [⟨false, l_output0, false⟩, ⟨true, l_output0, false⟩, ⟨true, r2, false⟩]
    | (r2, none) =>
      [⟨false, l_output0, false⟩, ⟨true, l_output0, false⟩, ⟨true, r2, false⟩,
        ⟨true, r2, true⟩]
  else
    [⟨false, l_output0, false⟩, ⟨false, l_output0, true⟩]

/-- Claim C3 counterexample.  It is not true that the global sink reference is
set only after `open` has succeeded: `main` publishes `graph_renderer` first
(line 101) and calls `open` afterwards (line 102), so with `--renderto=out.html`
the trace contains a point where the reference is set while the sink has not
completed any `open`. -/
theorem c3_counterexample :
    ¬ (∀ (fs : String → Bool) (ofn : String), ∀ s ∈ mainTrace fs ofn,
        s.graph_renderer_set = true → s.l_output.m_file.isOpen = true) := by
  intro h
  have hmem : (⟨true, l_output0, false⟩ : HarnessState)
      ∈ mainTrace (fun _ => true) "out.html" := by decide
  have h2 := h (fun _ => true) "out.html" _ hmem rfl
  exact absurd h2 (by decide)

/-- Claim C3, amended.  The harness publishes the global reference
immediately before calling `open`, not after; however, whenever the test run
(`ctx.run()`) is in progress and the reference is set, the sink it points to
has completed a successful `open` (file attached, stream healthy) — on open
failure the program terminates before running any test. -/
theorem c3_amended (fs : String → Bool) (ofn : String) :
    ∀ s ∈ mainTrace fs ofn, s.running = true → s.graph_renderer_set = true →
      s.l_output.m_file.isOpen = true ∧ s.l_output.m_file.good = true := by
  intro s hmem hrun hset
  unfold mainTrace at hmem
  split at hmem
  · rcases hmatch : l_output0.openFile fs ofn with ⟨r2, err⟩
    rw [hmatch] at hmem
    cases err with
    | some msg =>
      simp only [List.mem_cons, List.not_mem_nil, or_false] at hmem
      rcases hmem with rfl | rfl | rfl <;> exact Bool.noConfusion hrun
    | none =>
      simp only [List.mem_cons, List.not_mem_nil, or_false] at hmem
      rcases hmem with rfl | rfl | rfl | rfl
      · exact Bool.noConfusion hrun
      · exact Bool.noConfusion hrun
      · exact Bool.noConfusion hrun
      · have h2 := openFile_ok fs l_output0 ofn (by rw [hmatch])
        rw [hmatch] at h2
        simpa using h2
  · simp only [List.mem_cons, List.not_mem_nil, or_false] at hmem
    rcases hmem with rfl | rfl
    · exact Bool.noConfusion hrun
    · exact Bool.noConfusion hset

/-- Claim C3 amended, witness: the running program point of a successful
`--renderto=out.html` invocation. -/
theorem c3_amended_witness :
    ((⟨true, (l_output0.openFile (fun _ => true) "out.html").1, true⟩ : HarnessState)
        ∈ mainTrace (fun _ => true) "out.html"
      ∧ (⟨true, (l_output0.openFile (fun _ => true) "out.html").1, true⟩
          : HarnessState).running = true
      ∧ (⟨true, (l_output0.openFile (fun _ => true) "out.html").1, true⟩
          : HarnessState).graph_renderer_set = true)
    ∧ ((⟨true, (l_output0.openFile (fun _ => true) "out.html").1, true⟩
          : HarnessState).l_output.m_file.isOpen = true
      ∧ (⟨true, (l_output0.openFile (fun _ => true) "out.html").1, true⟩
          : HarnessState).l_output.m_file.good = true) :=
  ⟨by decide,
    c3_amended (fun _ => true) "out.html"
      ⟨true, (l_output0.openFile (fun _ => true) "out.html").1, true⟩
      (by decide) (by decide) (by decide)⟩

/-- Claim C6, witness: the default harness sink with mode `tozero`, id
`mydiv` and no plot-type override. -/
theorem c6_rangemode_witness :
    (countIn "rangemode".data "mydiv".data = 0
      ∧ countIn "rangemode".data "".data = 0
      ∧ countIn "rangemode".data (HtmlGraphRenderer.construct "violin").m_plot_type.data = 0
      ∧ countIn "rangemode".data (HtmlGraphRenderer.construct "violin").m_show_epochs.data = 0
      ∧ countIn "rangemode".data (HtmlGraphRenderer.construct "violin").m_show_legend.data = 0
      ∧ countIn "rangemode".data "tozero".data = 0)
    ∧ ((("tozero" : String).isEmpty = true →
        ¬ (("rangemode:").data <:+:
          (((HtmlGraphRenderer.construct "violin").rangemode "tozero").skeleton
            "mydiv" "").data))
      ∧ (("tozero" : String).isEmpty = false →
        countIn ("rangemode: \x27" ++ "tozero" ++ "\x27").data
          (((HtmlGraphRenderer.construct "violin").rangemode "tozero").skeleton
            "mydiv" "").data = 1)) :=
  ⟨by decide,
    c6_rangemode (HtmlGraphRenderer.construct "violin") "mydiv" "" "tozero"
      (by decide) (by decide) (by decide) (by decide) (by decide) (by decide)⟩

/-- Claim C7, witness: the default harness sink, id `mydiv`, no plot-type
override. -/
theorem c7_showepochs_witness :
    (countIn "epochs".data "mydiv".data = 0
      ∧ countIn "epochs".data "".data = 0
      ∧ countIn "epochs".data (HtmlGraphRenderer.construct "violin").m_plot_type.data = 0
      ∧ countIn "epochs".data (HtmlGraphRenderer.construct "violin").m_show_legend.data = 0
      ∧ countIn "epochs".data (HtmlGraphRenderer.construct "violin").m_range_mode.data = 0)
    ∧ (("; epochs: \x7b\x7bepochs\x7d\x7d").data
        <:+: (((HtmlGraphRenderer.construct "violin").showepochs true).skeleton
          "mydiv" "").data
      ∧ ¬ (("; epochs: \x7b\x7bepochs\x7d\x7d").data
        <:+: (((HtmlGraphRenderer.construct "violin").showepochs false).skeleton
          "mydiv" "").data)) :=
  ⟨by decide,
    c7_showepochs (HtmlGraphRenderer.construct "violin") "mydiv" ""
      (by decide) (by decide) (by decide) (by decide) (by decide)⟩
